import Mathlib

/-!
Shallow embedding of wave_plus_exporter.py.

The program polls Airthings Wave Plus devices over BLE, decodes a fixed
binary payload, and exposes the derived values as Prometheus gauges.
We embed each component as an executable Lean definition translated from
the Python source:

* structUnpack      — struct.unpack("BBBBHHHHHHHH", raw_data) (line 77);
* collect_metrics   — WavePlusDevice.collect_metrics (lines 54-103), with
  the retry loop, the per-attempt failures, the sleeps between retries and
  the Python 3 deletion of the except-bound variable modelled explicitly;
* parse_serial_number, scanStep/scanFold, detect — WavePlusDeviceDetector
  (lines 106-150);
* radonClamp        — WavePlusSensors._radon (lines 189-194);
* update_counters   — WavePlusSensors.update_counters (lines 177-187), the
  gauge registry modelled as a map from (metric name, device label) to the
  latest rational value;
* runCycle          — one pass of WavePlusExporter.update_metrics
  (lines 212-218).

Bytes are Nat (values below 256 in every real input); Python floats are
modelled as rationals; an uncaught Python exception is modelled by the
PyResult.exn constructor.
-/

/-- Result of running a piece of Python code: a normal return value, or an
uncaught exception identified by its class name. -/
inductive PyResult (α : Type) where
  | ok : α → PyResult α
  | exn : String → PyResult α
deriving Repr, DecidableEq

/-- The 12 fields produced by struct.unpack("BBBBHHHHHHHH", raw_data):
4 unsigned 8-bit fields followed by 8 unsigned 16-bit fields. -/
structure RawMetrics where
  f0 : Nat
  f1 : Nat
  f2 : Nat
  f3 : Nat
  f4 : Nat
  f5 : Nat
  f6 : Nat
  f7 : Nat
  f8 : Nat
  f9 : Nat
  f10 : Nat
  f11 : Nat
deriving Repr, DecidableEq

/-- Little-endian composition of two bytes into an unsigned 16-bit value,
as struct.unpack performs it on the little-endian hosts the program runs on. -/
def u16 (lo hi : Nat) : Nat := lo ||| (hi <<< 8)

/-- struct.unpack("BBBBHHHHHHHH", raw_data) from line 77 of the source.
The native-mode format string has calcsize 4 * 1 + 8 * 2 = 20, so unpack
raises struct.error (here: none) unless the input is exactly 20 bytes;
otherwise it yields the four leading bytes and the eight little-endian
16-bit fields at offsets 4, 6, ..., 18. -/
def structUnpack (bs : List Nat) : Option RawMetrics :=
  if h : bs.length = 20 then
    some
      { f0 := bs.get ⟨0, by omega⟩
        f1 := bs.get ⟨1, by omega⟩
        f2 := bs.get ⟨2, by omega⟩
        f3 := bs.get ⟨3, by omega⟩
        f4 := u16 (bs.get ⟨4, by omega⟩) (bs.get ⟨5, by omega⟩)
        f5 := u16 (bs.get ⟨6, by omega⟩) (bs.get ⟨7, by omega⟩)
        f6 := u16 (bs.get ⟨8, by omega⟩) (bs.get ⟨9, by omega⟩)
        f7 := u16 (bs.get ⟨10, by omega⟩) (bs.get ⟨11, by omega⟩)
        f8 := u16 (bs.get ⟨12, by omega⟩) (bs.get ⟨13, by omega⟩)
        f9 := u16 (bs.get ⟨14, by omega⟩) (bs.get ⟨15, by omega⟩)
        f10 := u16 (bs.get ⟨16, by omega⟩) (bs.get ⟨17, by omega⟩)
        f11 := u16 (bs.get ⟨18, by omega⟩) (bs.get ⟨19, by omega⟩) }
  else none

/-- WavePlusSensors._radon (lines 189-194): a radon reading is kept when it
lies in [0, 16383], else replaced by the sentinel -1. -/
def radonClamp (radon : Int) : Int :=
  if 0 ≤ radon ∧ radon ≤ 16383 then radon else -1

/-- Metric name registered for humidity (line 155). -/
def HUMID : String := "humidity_percent"
/-- Metric name registered for short-term radon (line 156). -/
def RADON_S : String := "radon_short_term_avg_becquerels"
/-- Metric name registered for long-term radon (line 157). -/
def RADON_L : String := "radon_long_term_avg_becquerels"
/-- Metric name registered for temperature (line 158). -/
def TEMP : String := "temperature_celsius"
/-- Metric name registered for pressure (line 159). -/
def PRESS : String := "pressure_pascal"
/-- Metric name registered for CO2 (line 160). -/
def CO2 : String := "carbondioxide_ppm"
/-- Metric name registered for VOC (line 161). -/
def VOC : String := "voc_ppb"

/-- The gauge registry: latest value per (metric name, device label), none
when a gauge slot was never set. -/
def Store : Type := String → String → Option ℚ

/-- Gauge.set: record value v for the given metric under device label. -/
def gaugeSet (store : Store) (metric label : String) (v : ℚ) : Store :=
  fun m l => if m = metric ∧ l = label then some v else store m l

/-- The empty registry: no gauge has been set. -/
def emptyStore : Store := fun _ _ => none

/-- WavePlusSensors.update_counters (lines 177-187): if the version field
(field 0) differs from 1, log an error and return with no gauge written;
otherwise set the seven gauges from the raw fields (humidity halved, radon
fields clamped, temperature divided by 100, pressure by 50, CO2 and VOC
taken as floats). -/
def update_counters (store : Store) (name : String) (raw : RawMetrics) : Store :=
  if raw.f0 ≠ 1 then store
  else
    let s1 := gaugeSet store HUMID name ((raw.f1 : ℚ) / 2)
    let s2 := gaugeSet s1 RADON_S name ((radonClamp (raw.f4 : Int) : ℚ))
    let s3 := gaugeSet s2 RADON_L name ((radonClamp (raw.f5 : Int) : ℚ))
    let s4 := gaugeSet s3 TEMP name ((raw.f6 : ℚ) / 100)
    let s5 := gaugeSet s4 PRESS name ((raw.f7 : ℚ) / 50)
    let s6 := gaugeSet s5 CO2 name ((raw.f8 : ℚ) * 1)
    let s7 := gaugeSet s6 VOC name ((raw.f9 : ℚ) * 1)
    s7

/-- The raw reading used by the spec's worked example for derive. -/
def rawExample : RawMetrics :=
  { f0 := 1, f1 := 100, f2 := 0, f3 := 0, f4 := 500, f5 := 600,
    f6 := 2500, f7 := 50000, f8 := 800, f9 := 250, f10 := 0, f11 := 0 }

/-- A reading whose version tag is not 1. -/
def rawBadVersion : RawMetrics :=
  { f0 := 0, f1 := 100, f2 := 0, f3 := 0, f4 := 500, f5 := 600,
    f6 := 2500, f7 := 50000, f8 := 800, f9 := 250, f10 := 0, f11 := 0 }

/-- What collect_metrics produced: the Python-level result (a returned
value, or an uncaught exception), how many connect-and-read attempts were
made, and how many sleep_between_retries waits (5 s each) were performed. -/
structure CollectOutcome where
  result : PyResult (Option RawMetrics)
  attemptsMade : Nat
  sleepsDone : Nat
deriving Repr, DecidableEq

/-- The retry loop of collect_metrics (lines 74-83). The transport is an
oracle giving, for each retry index, the bytes read when the bounded
connect-and-read succeeded, or none when it raised (timeout, connection or
transport error). struct.unpack runs inside the same try, so a payload of
the wrong length also counts as a failed attempt. The returned fields are:
the unpacked metrics on success, the number of attempts made, the number of
sleeps performed, and whether the except clause ran at least once — in which
case Python 3 has deleted the local name exc at the end of the handler. -/
def collectLoop (attempt : Nat → Option (List Nat)) :
    Nat → Nat → Option RawMetrics × Nat × Nat × Bool
  | _, 0 => (none, 0, 0, false)
  | idx, fuel + 1 =>
    match (attempt idx).bind structUnpack with
    | some rm => (some rm, 1, 0, false)
    | none =>
      let r := collectLoop attempt (idx + 1) fuel
      (r.1, r.2.1 + 1, r.2.2.1 + 1, true)

/-- WavePlusDevice.collect_metrics (lines 54-103). When the device was not
detected it logs an error and returns None with no I/O attempted. Otherwise
it runs the retry loop; on a successful attempt it returns the unpacked
tuple. When every attempt failed it reaches the logger.error call of line
96, whose argument exc is unbound — the except clause deleted it — so the
call raises NameError (UnboundLocalError) instead of returning None; only
when the loop body never ran (max_tries = 0) is exc still the None bound at
line 73 and the function returns None normally. -/
def collect_metrics (detected : Bool) (attempt : Nat → Option (List Nat))
    (max_tries : Nat) : CollectOutcome :=
  if detected = false then { result := .ok none, attemptsMade := 0, sleepsDone := 0 }
  else
    let r := collectLoop attempt 0 max_tries
    match r.1 with
    | some rm => { result := .ok (some rm), attemptsMade := r.2.1, sleepsDone := r.2.2.1 }
    | none =>
      if r.2.2.2 then { result := .exn "NameError", attemptsMade := r.2.1, sleepsDone := r.2.2.1 }
      else { result := .ok none, attemptsMade := r.2.1, sleepsDone := r.2.2.1 }

/-- The BLE service UUID advertised by Wave Plus devices (line 12). -/
def SERVICE_UUID : String := "b42e1c08-ade7-11e4-89d3-123b93f75cba"

/-- One advertisement seen during the scan window: the device address, the
advertised service UUIDs, and the manufacturer-data bytes under the vendor
key 0x0334 (none when either the manufacturer_data dict or that key is
missing, which the source catches as KeyError). -/
structure Advert where
  address : String
  uuids : List String
  mfdata : Option (List Nat)

/-- WavePlusDeviceDetector.parse_serial_number (lines 112-121): read the
first four bytes as a little-endian unsigned 32-bit integer; when the data
has fewer than 4 bytes the indexing raises IndexError and None is
returned. -/
def parse_serial_number (data : List Nat) : Option Nat :=
  match data with
  | d0 :: d1 :: d2 :: d3 :: _ =>
    some (d0 ||| (d1 <<< 8) ||| (d2 <<< 16) ||| (d3 <<< 24))
  | _ => none

/-- The serial-number map built by scanning: serial number to address. -/
def SnMap : Type := Nat → Option String

/-- The empty serial-number map of a fresh detector (line 108). -/
def emptySnMap : SnMap := fun _ => none

/-- Store the address under a serial number in the map (line 133). -/
def snInsert (m : SnMap) (sn : Nat) (addr : String) : SnMap :=
  fun k => if k = sn then some addr else m k

/-- The body of the scan loop for one advertisement (lines 126-140): skip
it unless SERVICE_UUID is among its advertised UUIDs; skip it when the
manufacturer-data entry is missing (KeyError); parse the serial number and,
because of the truthiness test of line 132, record the address only when
the parse succeeded with a nonzero value. -/
def scanStep (m : SnMap) (ad : Advert) : SnMap :=
  if ad.uuids.contains SERVICE_UUID then
    match ad.mfdata with
    | some data =>
      match parse_serial_number data with
      | some sn => if sn ≠ 0 then snInsert m sn ad.address else m
      | none => m
    | none => m
  else m

/-- WavePlusDeviceDetector.scan over the whole advertisement list
(lines 123-142), threading the serial-number map through scanStep. -/
def scanFold (m : SnMap) : List Advert → SnMap
  | [] => m
  | ad :: rest => scanFold (scanStep m ad) rest

/-- The mutable state of a WavePlusDeviceDetector (lines 107-110): the
serial-number map and the scanned flag. -/
structure DetectorState where
  sn_map : SnMap
  scanned : Bool

/-- A freshly constructed detector: empty map, not yet scanned. -/
def initDetector : DetectorState := { sn_map := emptySnMap, scanned := false }

/-- WavePlusDeviceDetector.scan's effect on the detector state (lines
123-142): fold the advertisements into sn_map and set scanned. -/
def scanState (st : DetectorState) (ads : List Advert) : DetectorState :=
  { sn_map := scanFold st.sn_map ads, scanned := true }

/-- WavePlusDeviceDetector.get_address (lines 144-145): pure map lookup. -/
def get_address (st : DetectorState) (sn : Nat) : Option String :=
  st.sn_map sn

/-- WavePlusDeviceDetector.detect (lines 147-150): scan only when no scan
has happened yet, then look the device's serial number up in the map. The
ads argument is the environment a scan would observe; the Nat in the result
counts how many scans this call performed. -/
def detect (st : DetectorState) (ads : List Advert) (sn : Nat) :
    DetectorState × Option String × Nat :=
  if st.scanned then (st, get_address st sn, 0)
  else
    let st2 := scanState st ads
    (st2, get_address st2 sn, 1)

/-- One configured device as the poll loop sees it: its gauge label, its
detected flag (set by detect at startup), and its transport oracle. -/
structure DeviceModel where
  name : String
  detected : Bool
  attempt : Nat → Option (List Nat)

/-- One pass of the loop body of WavePlusExporter.update_metrics
(lines 213-217): for each device in order, await collect_metrics with its
default arguments and, when it returned a (truthy) tuple, run
update_counters; a None return leaves the store untouched; an exception
raised by collect_metrics propagates and aborts the pass. -/
def runCycle : List DeviceModel → Store → PyResult Store
  | [], store => .ok store
  | d :: rest, store =>
    match (collect_metrics d.detected d.attempt 12).result with
    | .exn e => .exn e
    | .ok none => runCycle rest store
    | .ok (some rm) => runCycle rest (update_counters store d.name rm)

/-- A valid 20-byte payload: version 1, humidity byte 100, radon 500 and
600, temperature 2500, pressure 50000, CO2 800, VOC 250. -/
def goodPayload : List Nat :=
  [1, 100, 0, 0, 244, 1, 88, 2, 196, 9, 80, 195, 32, 3, 250, 0, 0, 0, 0, 0]

/-- The first four bytes of the data read as a little-endian unsigned
32-bit integer (0 when the data is shorter than 4 bytes; only used under a
length guard). Spec-side counterpart of parse_serial_number. -/
def leFirst4 (data : List Nat) : Nat :=
  match data with
  | d0 :: d1 :: d2 :: d3 :: _ =>
    d0 ||| (d1 <<< 8) ||| (d2 <<< 16) ||| (d3 <<< 24)
  | _ => 0

/-- Acceptance condition following the words of the amended scan claim: the
advertisement advertises the target service UUID, carries a vendor-data
entry of at least 4 bytes, and its first four bytes read little-endian give
the (necessarily nonzero) serial number sn. -/
def specAccepts (sn : Nat) (ad : Advert) : Bool :=
  ad.uuids.contains SERVICE_UUID &&
    match ad.mfdata with
    | some data => decide (4 ≤ data.length) && (leFirst4 data == sn) && (sn != 0)
    | none => false

/-- Address of the last advertisement in the list accepted for serial
number sn, following the spec's last-seen-wins wording. -/
def lastSpec (sn : Nat) : List Advert → Option String
  | [] => none
  | ad :: rest =>
    match lastSpec sn rest with
    | some a => some a
    | none => if specAccepts sn ad then some ad.address else none

lemma parse_serial_number_eq_some (data : List Nat) (sn : Nat) :
    parse_serial_number data = some sn ↔ 4 ≤ data.length ∧ leFirst4 data = sn := by
  rcases data with _ | ⟨d0, _ | ⟨d1, _ | ⟨d2, _ | ⟨d3, rest⟩⟩⟩⟩ <;>
    simp [parse_serial_number, leFirst4]

lemma scanStep_lookup (m : SnMap) (ad : Advert) (sn : Nat) :
    scanStep m ad sn = if specAccepts sn ad then some ad.address else m sn := by
  unfold scanStep specAccepts
  rcases hc : ad.uuids.contains SERVICE_UUID with _ | _
  · simp [hc]
  · rcases hd : ad.mfdata with _ | data
    · simp [hc, hd]
    · rcases hp : parse_serial_number data with _ | v
      · have hlen : ¬ 4 ≤ data.length := by
          intro hge
          have := (parse_serial_number_eq_some data (leFirst4 data)).mpr ⟨hge, rfl⟩
          rw [hp] at this
          exact Option.noConfusion this
        simp [hc, hd, hp, hlen]
      · have hv := (parse_serial_number_eq_some data v).mp hp
        by_cases hz : v = 0
        · subst hz
          simp [hc, hd, hp, hv.2]
          rw [if_neg (fun h => h.2 h.1.2.symm)]
        · by_cases hsn : sn = v
          · subst hsn
            simp [hc, hd, hp, hz, snInsert, hv.1, hv.2]
          · have : leFirst4 data ≠ sn := by rw [hv.2]; exact fun h => hsn h.symm
            simp [hc, hd, hp, hz, snInsert, this, Ne.symm hsn]
            exact fun h => absurd h hsn

lemma scanFold_lookup (ads : List Advert) (m : SnMap) (sn : Nat) :
    scanFold m ads sn =
      match lastSpec sn ads with
      | some a => some a
      | none => m sn := by
  induction ads generalizing m with
  | nil => simp [scanFold, lastSpec]
  | cons ad rest ih =>
    show scanFold (scanStep m ad) rest sn = _
    rw [ih]
    rcases hl : lastSpec sn rest with _ | a
    · simp only [lastSpec, hl, scanStep_lookup]
      by_cases ha : specAccepts sn ad <;> simp [ha]
    · simp [lastSpec, hl]

lemma specAccepts_zero (ad : Advert) : specAccepts 0 ad = false := by
  unfold specAccepts
  rcases ad.mfdata with _ | data <;> simp

lemma lastSpec_zero (ads : List Advert) : lastSpec 0 ads = none := by
  induction ads with
  | nil => rfl
  | cons ad rest ih => simp [lastSpec, ih, specAccepts_zero]

/-- An advertisement advertising the Wave Plus service whose vendor data
has four bytes, all zero: its parsed serial number is 0. -/
def advertZeroSerial : Advert :=
  { address := "01:02:03:04:05:06", uuids := [SERVICE_UUID],
    mfdata := some [0, 0, 0, 0] }

/-- A detector whose scan already happened, with an empty result map. -/
def cachedDetector : DetectorState := { sn_map := emptySnMap, scanned := true }

/-- C1, counterexample: the claim says decode succeeds exactly on 16-byte
inputs, but the format string BBBBHHHHHHHH has size 20, so a 16-byte input
makes struct.unpack raise while a 20-byte input succeeds. -/
theorem C1_decode_cex :
    (List.replicate 16 (0 : Nat)).length = 16 ∧
    structUnpack (List.replicate 16 (0 : Nat)) = none ∧
    (List.replicate 20 (0 : Nat)).length ≠ 16 ∧
    structUnpack (List.replicate 20 (0 : Nat)) ≠ none := by
  refine ⟨by decide, by decide, by decide, by decide⟩

/-- C1 (amended): decode succeeds exactly on inputs of length 20 bytes,
producing the 4 unsigned 8-bit fields followed by the 8 little-endian
unsigned 16-bit fields; every other input length fails. -/
theorem C1_decode_amended :
    (∀ bs : List Nat, (structUnpack bs).isSome ↔ bs.length = 20) ∧
    (∀ b0 b1 b2 b3 b4 b5 b6 b7 b8 b9 b10 b11 b12 b13 b14 b15 b16 b17 b18 b19 : Nat,
      structUnpack [b0, b1, b2, b3, b4, b5, b6, b7, b8, b9,
                    b10, b11, b12, b13, b14, b15, b16, b17, b18, b19] =
        some { f0 := b0, f1 := b1, f2 := b2, f3 := b3,
               f4 := u16 b4 b5, f5 := u16 b6 b7, f6 := u16 b8 b9, f7 := u16 b10 b11,
               f8 := u16 b12 b13, f9 := u16 b14 b15, f10 := u16 b16 b17,
               f11 := u16 b18 b19 }) := by
  constructor
  · intro bs
    by_cases h : bs.length = 20
    · simp [structUnpack, h]
    · simp [structUnpack, h]
  · intro b0 b1 b2 b3 b4 b5 b6 b7 b8 b9 b10 b11 b12 b13 b14 b15 b16 b17 b18 b19
    rfl

/-- Witness for C1 (amended): a concrete 20-byte input decodes. -/
theorem C1_decode_amended_witness :
    (structUnpack (List.replicate 20 (0 : Nat))).isSome :=
  (C1_decode_amended.1 (List.replicate 20 (0 : Nat))).mpr (by decide)

/-- C2, code bug: against a transport failing on every attempt, the run
with the default max_tries = 12 makes exactly 12 attempts and 12 sleeps
(one after every failed attempt, the last included), but then raises
NameError instead of returning None: the final logger.error call reads the
variable exc that the except clause deleted. -/
theorem C2_all_fail_raises :
    collect_metrics true (fun _ => none) 12 =
      { result := .exn "NameError", attemptsMade := 12, sleepsDone := 12 } := by
  rfl

/-- C3, code bug: in a cycle over a device whose reads always fail followed
by a healthy device, the NameError raised inside collect_metrics propagates
out of the loop body, so the cycle aborts before the healthy device is
polled — contradicting the containment the claim states. The second
conjunct shows the healthy device on its own would have produced a reading
on its first attempt. -/
theorem C3_cycle_escalates :
    runCycle [{ name := "bad", detected := true, attempt := fun _ => none },
              { name := "good", detected := true, attempt := fun _ => some goodPayload }]
        emptyStore = .exn "NameError" ∧
    collect_metrics true (fun _ => some goodPayload) 12 =
      { result := .ok (some rawExample), attemptsMade := 1, sleepsDone := 0 } := by
  refine ⟨rfl, by decide⟩

/-- C4: for every raw reading whose version field is 1, update_counters
sets the seven gauges to humidity / 2, the two clamped radon values,
temperature / 100, pressure / 50, and CO2 and VOC as floats. -/
theorem C4_derive_formulas :
    ∀ (store : Store) (name : String) (raw : RawMetrics), raw.f0 = 1 →
      update_counters store name raw HUMID name = some ((raw.f1 : ℚ) / 2) ∧
      update_counters store name raw RADON_S name = some ((radonClamp (raw.f4 : Int) : ℚ)) ∧
      update_counters store name raw RADON_L name = some ((radonClamp (raw.f5 : Int) : ℚ)) ∧
      update_counters store name raw TEMP name = some ((raw.f6 : ℚ) / 100) ∧
      update_counters store name raw PRESS name = some ((raw.f7 : ℚ) / 50) ∧
      update_counters store name raw CO2 name = some ((raw.f8 : ℚ)) ∧
      update_counters store name raw VOC name = some ((raw.f9 : ℚ)) := by
  intro store name raw h
  unfold update_counters
  simp [h, gaugeSet, HUMID, RADON_S, RADON_L, TEMP, PRESS, CO2, VOC]

/-- Witness for C4: the spec's worked example, reading
(1, 100, _, _, 500, 600, 2500, 50000, 800, 250, _, _), yields gauge values
(50, 500, 600, 25, 1000, 800, 250). -/
theorem C4_derive_formulas_witness :
    update_counters emptyStore "dev" rawExample HUMID "dev" = some 50 ∧
    update_counters emptyStore "dev" rawExample RADON_S "dev" = some 500 ∧
    update_counters emptyStore "dev" rawExample RADON_L "dev" = some 600 ∧
    update_counters emptyStore "dev" rawExample TEMP "dev" = some 25 ∧
    update_counters emptyStore "dev" rawExample PRESS "dev" = some 1000 ∧
    update_counters emptyStore "dev" rawExample CO2 "dev" = some 800 ∧
    update_counters emptyStore "dev" rawExample VOC "dev" = some 250 := by
  have h := C4_derive_formulas emptyStore "dev" rawExample rfl
  refine ⟨?_, ?_, ?_, ?_, ?_, ?_, ?_⟩
  · rw [h.1]; norm_num [rawExample]
  · rw [h.2.1]; norm_num [rawExample, radonClamp]
  · rw [h.2.2.1]; norm_num [rawExample, radonClamp]
  · rw [h.2.2.2.1]; norm_num [rawExample]
  · rw [h.2.2.2.2.1]; norm_num [rawExample]
  · rw [h.2.2.2.2.2.1]; norm_num [rawExample]
  · rw [h.2.2.2.2.2.2]; norm_num [rawExample]

/-- C5: the radon clamp returns its argument on [0, 16383] and the sentinel
-1 everywhere else, with the stated boundary values. -/
theorem C5_radon_clamp_spec :
    (∀ x : Int, (0 ≤ x ∧ x ≤ 16383 → radonClamp x = x) ∧
      ((x < 0 ∨ 16383 < x) → radonClamp x = -1)) ∧
    radonClamp 0 = 0 ∧ radonClamp 16383 = 16383 ∧
    radonClamp 16384 = -1 ∧ radonClamp (-1) = -1 := by
  refine ⟨fun x => ⟨fun h => ?_, fun h => ?_⟩, by decide, by decide, by decide, by decide⟩
  · simp [radonClamp, h.1, h.2]
  · unfold radonClamp
    rw [if_neg (by omega)]

/-- Witness for C5: an in-range and an out-of-range value. -/
theorem C5_radon_clamp_spec_witness :
    radonClamp 7 = 7 ∧ radonClamp 20000 = -1 :=
  ⟨(C5_radon_clamp_spec.1 7).1 (by decide), (C5_radon_clamp_spec.1 20000).2 (by decide)⟩

/-- C6: when the version field differs from 1 the reading is discarded
whole — update_counters returns with the gauge store unchanged, so no
metric slot is written (the condition is logged, not raised). -/
theorem C6_invalid_version_unchanged :
    ∀ (store : Store) (name : String) (raw : RawMetrics), raw.f0 ≠ 1 →
      update_counters store name raw = store := by
  intro store name raw h
  simp [update_counters, h]

/-- Witness for C6: a version-0 reading leaves the empty store empty. -/
theorem C6_invalid_version_unchanged_witness :
    update_counters emptyStore "dev" rawBadVersion = emptyStore :=
  C6_invalid_version_unchanged emptyStore "dev" rawBadVersion (by decide)

/-- C7: an undetected device makes collect_metrics return None at once —
zero attempts, zero sleeps, no exception — and the poll cycle over it is
the poll cycle over the remaining devices with the store untouched. -/
theorem C7_undetected_skipped :
    ∀ (attempt : Nat → Option (List Nat)) (max_tries : Nat) (name : String)
      (rest : List DeviceModel) (store : Store),
      collect_metrics false attempt max_tries =
        { result := .ok none, attemptsMade := 0, sleepsDone := 0 } ∧
      runCycle ({ name := name, detected := false, attempt := attempt } :: rest) store =
        runCycle rest store := by
  intro attempt max_tries name rest store
  exact ⟨rfl, rfl⟩

/-- C8, counterexample: an advertisement that advertises the service UUID
and carries a 4-byte vendor-data entry — so the claim says its serial is
recorded — parses to serial number 0 and the scan records nothing for it,
because of the truthiness test on line 132. -/
theorem C8_scan_cex :
    advertZeroSerial.uuids.contains SERVICE_UUID = true ∧
    advertZeroSerial.mfdata = some [0, 0, 0, 0] ∧
    (4 : Nat) ≤ [0, 0, 0, 0].length ∧
    parse_serial_number [0, 0, 0, 0] = some 0 ∧
    scanFold emptySnMap [advertZeroSerial] 0 = none := by
  refine ⟨by decide, rfl, by decide, rfl, rfl⟩

/-- C8 (amended): the scan records an entry exactly for the advertisements
with the target service UUID, a vendor-data entry of at least 4 bytes, and
a nonzero little-endian serial in the first four bytes; last seen wins, and
everything else (including serial 0) is silently skipped. -/
theorem C8_scan_amended :
    ∀ (ads : List Advert) (sn : Nat),
      scanFold emptySnMap ads sn = lastSpec sn ads := by
  intro ads sn
  rw [scanFold_lookup]
  rcases h : lastSpec sn ads with _ | a
  · simp [emptySnMap]
  · simp

/-- C9: once the scanned flag is set, detect performs no scan and is a pure
lookup in the cached map; a scan sets the flag; and after a first detect
from the fresh state, a second detect performs zero scans and reads the map
the first scan built. -/
theorem C9_detect_cached :
    (∀ (st : DetectorState) (ads : List Advert) (sn : Nat),
      st.scanned = true → detect st ads sn = (st, st.sn_map sn, 0)) ∧
    (∀ (st : DetectorState) (ads : List Advert), (scanState st ads).scanned = true) ∧
    (∀ (ads ads2 : List Advert) (sn sn2 : Nat),
      ((detect initDetector ads sn).1).scanned = true ∧
      detect ((detect initDetector ads sn).1) ads2 sn2 =
        ((detect initDetector ads sn).1, scanFold emptySnMap ads sn2, 0)) := by
  refine ⟨?_, ?_, ?_⟩
  · intro st ads sn h
    simp [detect, h, get_address]
  · intro st ads
    rfl
  · intro ads ads2 sn sn2
    exact ⟨rfl, rfl⟩

/-- Witness for C9: a detector already scanned answers from its map with
zero scans. -/
theorem C9_detect_cached_witness :
    detect cachedDetector [] 42 = (cachedDetector, cachedDetector.sn_map 42, 0) :=
  C9_detect_cached.1 cachedDetector [] 42 rfl

/-- C10: four zero bytes parse to serial number 0, and no scan over any
advertisement list ever records an entry under serial number 0, so a device
with serial number 0 can never be resolved. -/
theorem C10_zero_serial_never_recorded :
    (∀ rest : List Nat, parse_serial_number (0 :: 0 :: 0 :: 0 :: rest) = some 0) ∧
    (∀ ads : List Advert, scanFold emptySnMap ads 0 = none) := by
  constructor
  · intro rest
    rfl
  · intro ads
    rw [scanFold_lookup, lastSpec_zero]
    rfl
